import Mathlib

/-!
Verification of the LegitCHAIN TITAN blockchain network adapter layer
(`blockchain-adapters.ts`, version 7.0.0).

The adapter layer is embedded shallowly:

* The shared record types (`NetworkConfig`, `Transaction`, `ProofFormat`,
  `NetworkMetrics`, `Block`) come from `./types`, a module of this repository
  that is not part of the adapter source; they are modelled from the spec's
  data-model section (§3).
* Each adapter class becomes a Lean structure holding its constructor
  configuration plus the optional backend handle (`client` / `sdk` /
  `provider`), which is `none` until `initialize` assigns it — mirroring the
  JavaScript field that is `undefined` until `initialize` runs.
* Methods become functions returning `Except AdapterError α`.  A JavaScript
  `TypeError` raised by dereferencing an `undefined` field is modelled as
  `AdapterError.typeError`; the spec's error taxonomy (§7) supplies the other
  constructors.
* External backend primitives (the PoA client, the Polygon SDK, the ethers
  provider and its signing utilities) are outside the adapter source; where a
  claim depends on them they are modelled from the spec's backend-boundary and
  proof-codec descriptions (§4.4, §6), as noted on each definition.
* JavaScript numbers are modelled as exact rationals (`Rat`), bigints as
  `Nat`; where a claim's truth would hinge on IEEE-754 rounding this is noted
  at the claim.
-/

/-- Error taxonomy from spec §7, together with `typeError` for a JavaScript
`TypeError` raised by the adapter code itself (e.g. dereferencing a field that
`initialize` never assigned). -/
inductive AdapterError where
  | typeError (msg : String)
  | configurationError
  | connectionError
  | submissionError
  | callError
  | notFoundError
  | metricsUnavailableError
  | proofGenerationError
  | unsupportedBackend (token : String)
  deriving DecidableEq, Repr

/-- Modelled from the spec (§3): `NetworkConfig` from `./types` — backend
identity, endpoints/RPC URL, credentials (private key), timeout, network and
version identifiers, and the verifier identity used by proof verification. -/
structure NetworkConfig where
  endpoints : List String
  rpc : String
  timeout : Nat
  network : String
  version : String
  privateKey : Nat
  verifier : Nat
  deriving DecidableEq, Repr

/-- Modelled from the spec (§3): backend-agnostic `Transaction` from
`./types` — target, payload and the caller's estimated resource cost.
`estimatedGas` is a JavaScript number, modelled as an exact rational. -/
structure Transaction where
  target : String
  payload : List Nat
  estimatedGas : Rat
  deriving DecidableEq, Repr

/-- Prepared PoA transaction: the object literal built by
`CustomPoAAdapter.submitTransaction` (lines 75–79), spreading the input
transaction and adding the `gasPrice` and `gasLimit` fields. -/
structure PoAPreparedTx where
  target : String
  payload : List Nat
  estimatedGas : Rat
  gasPrice : String
  gasLimit : Rat
  deriving DecidableEq, Repr

/-- `CustomPoAAdapter.calculateOptimalGasLimit` (lines 110–113):
`return tx.estimatedGas * 1.1` — no rounding is applied in the source. -/
def calculateOptimalGasLimit (tx : Transaction) : Rat :=
  tx.estimatedGas * (11 / 10)

/-- The prepared transaction built inside `CustomPoAAdapter.submitTransaction`
(lines 75–79): spread of `tx` with `gasPrice: '0'` and
`gasLimit: this.calculateOptimalGasLimit(tx)`. -/
def poaPrepareTx (tx : Transaction) : PoAPreparedTx :=
  { target := tx.target
    payload := tx.payload
    estimatedGas := tx.estimatedGas
    gasPrice := "0"
    gasLimit := calculateOptimalGasLimit tx }

/-- Modelled from the spec (ethers utility, not part of this repository):
`ethers.parseUnits(v, 'gwei')` scales a decimal value by 10^9 wei. -/
def parseUnitsGwei (v : Nat) : Nat :=
  v * 10 ^ 9

/-- `PolygonAdapter.getOptimalMaxFeePerGas` (lines 190–193):
`baseFee * 2n` on the bigint base fee fetched from the SDK; the base fee is
passed here explicitly as the backend-supplied value. -/
def getOptimalMaxFeePerGas (baseFee : Nat) : Nat :=
  baseFee * 2

/-- `PolygonAdapter.getOptimalPriorityFee` (lines 195–197):
`ethers.parseUnits('30', 'gwei')`, a constant taking no input. -/
def getOptimalPriorityFee : Nat :=
  parseUnitsGwei 30

/-- Prepared Polygon transaction: the object literal built by
`PolygonAdapter.submitTransaction` (lines 155–159). -/
structure PolygonPreparedTx where
  target : String
  payload : List Nat
  estimatedGas : Rat
  maxFeePerGas : Nat
  maxPriorityFeePerGas : Nat
  deriving DecidableEq, Repr

/-- The prepared transaction built inside `PolygonAdapter.submitTransaction`
(lines 155–159), with the base fee reported by the SDK passed explicitly. -/
def polygonPrepareTx (baseFee : Nat) (tx : Transaction) : PolygonPreparedTx :=
  { target := tx.target
    payload := tx.payload
    estimatedGas := tx.estimatedGas
    maxFeePerGas := getOptimalMaxFeePerGas baseFee
    maxPriorityFeePerGas := getOptimalPriorityFee }

/-- State of the external `CustomPoAClient` held by the PoA adapter.  The
client itself lives in `./poa-client`, outside the adapter source; only what
the adapter stores and reads is modelled: the config the client was
constructed from and whether `client.connect` has been called. -/
structure PoAClientState where
  cfg : NetworkConfig
  connected : Bool
  deriving DecidableEq, Repr

/-- `CustomPoAAdapter` (lines 40–114): the constructor stores `config`
read-only (line 44–48); the `client` field is unassigned (`undefined`) until
`initialize` runs, modelled as `Option`. -/
structure CustomPoAAdapter where
  config : NetworkConfig
  client : Option PoAClientState
  deriving DecidableEq, Repr

/-- `new CustomPoAAdapter(config)` (lines 44–48): stores the constructor
config; `client` is not yet assigned. -/
def mkCustomPoAAdapter (config : NetworkConfig) : CustomPoAAdapter :=
  { config := config, client := none }

/-- `CustomPoAAdapter.initialize(config)` (lines 50–60): constructs
`new CustomPoAClient(config)` from the ARGUMENT config and initializes it
(external call assumed to succeed; on failure the error is rethrown, which
this model does not need). -/
def poaInitialize (a : CustomPoAAdapter) (config : NetworkConfig) :
    CustomPoAAdapter :=
  { a with client := some { cfg := config, connected := false } }

/-- Argument object passed to `client.connect` by
`CustomPoAAdapter.connect` (lines 62–67). -/
structure PoAConnectParams where
  endpoints : List String
  timeout : Nat
  deriving DecidableEq, Repr

/-- `CustomPoAAdapter.connect()` (lines 62–67): calls
`this.client.connect({ endpoints: this.config.endpoints, timeout:
this.config.timeout })` — the CONSTRUCTOR's config, not the one given to
`initialize`.  If `initialize` never ran, `this.client` is `undefined` and the
call raises a `TypeError`.  Returns the updated adapter together with the
parameter object forwarded to the client. -/
def poaConnect (a : CustomPoAAdapter) :
    Except AdapterError (CustomPoAAdapter × PoAConnectParams) :=
  match a.client with
  | none => .error (.typeError "this.client is undefined")
  | some cl =>
      .ok ({ a with client := some { cl with connected := true } },
           { endpoints := a.config.endpoints, timeout := a.config.timeout })

/-- `CustomPoAAdapter.disconnect()` (lines 69–71): `await
this.client.disconnect()` with no guard — if `initialize` never ran,
`this.client` is `undefined` and the member access raises a `TypeError`.
The external client's own disconnect is best-effort (spec §6) and modelled as
succeeding. -/
def poaDisconnect (a : CustomPoAAdapter) :
    Except AdapterError CustomPoAAdapter :=
  match a.client with
  | none => .error (.typeError "this.client is undefined")
  | some cl => .ok { a with client := some { cl with connected := false } }

/-- Whether the PoA adapter's connection has succeeded (the adapter itself
stores no such flag; this reads the modelled client state). -/
def poaConnected (a : CustomPoAAdapter) : Bool :=
  match a.client with
  | none => false
  | some cl => cl.connected

/-- `CustomPoAAdapter.submitTransaction(tx)` (lines 73–82): prepares the
zero-fee transaction and forwards it to the client.  The behaviour of the
external `client.prepareTransaction`/`client.submitTransaction` pair is a
parameter (`clientSubmit`): the adapter performs NO connection-state check of
its own — its only possible local failure is the `TypeError` on an unassigned
`client`. -/
def poaSubmitTransaction
    (clientSubmit : PoAPreparedTx → Except AdapterError String)
    (a : CustomPoAAdapter) (tx : Transaction) : Except AdapterError String :=
  match a.client with
  | none => .error (.typeError "this.client is undefined")
  | some _ => clientSubmit (poaPrepareTx tx)

/-- Value stored under the `nodeCount` key of a metrics object.  JavaScript
lets any value sit under the key: `CustomPoAAdapter` stores a count, while
`EthereumAdapter` stores the network descriptor returned by
`provider.getNetwork()`. -/
inductive MetricValue where
  | count (n : Nat)
  | network (chainId : Nat) (name : String)
  deriving DecidableEq, Repr

/-- Metrics record returned by the adapters' `getMetrics`.  Modelled from the
spec (§3): average block time, throughput, node count, latency, optional gas
price.  Fields are `Option`s so that a returned object literal that OMITS a
key (as `EthereumAdapter.getMetrics` omits `tps`) is representable: an absent
key is `none`. -/
structure NetworkMetrics where
  blockTime : Option Rat
  tps : Option Rat
  nodeCount : Option MetricValue
  latency : Option Rat
  gasPrice : Option String
  deriving DecidableEq, Repr

/-- Raw metrics reported by the external PoA client
(`client.getNetworkMetrics`, spec §6 backend boundary). -/
structure PoAClientMetrics where
  averageBlockTime : Rat
  transactionsPerSecond : Rat
  activeNodes : Nat
  networkLatency : Rat
  deriving DecidableEq, Repr

/-- `CustomPoAAdapter.getMetrics()` (lines 92–100): maps every field of the
client's report onto the returned object literal, with the client's report
passed explicitly. -/
def poaGetMetrics (clientMetrics : PoAClientMetrics)
    (a : CustomPoAAdapter) : Except AdapterError NetworkMetrics :=
  match a.client with
  | none => .error (.typeError "this.client is undefined")
  | some _ =>
      .ok { blockTime := some clientMetrics.averageBlockTime
            tps := some clientMetrics.transactionsPerSecond
            nodeCount := some (.count clientMetrics.activeNodes)
            latency := some clientMetrics.networkLatency
            gasPrice := none }

/-- `PolygonAdapter` (lines 119–198): constructor config plus the `sdk`
field, unassigned until `initialize`. -/
structure PolygonAdapter where
  config : NetworkConfig
  sdk : Option NetworkConfig
  deriving DecidableEq, Repr

/-- `new PolygonAdapter(config)` (lines 123–127). -/
def mkPolygonAdapter (config : NetworkConfig) : PolygonAdapter :=
  { config := config, sdk := none }

/-- `PolygonAdapter.disconnect()` (lines 149–151): `await
this.sdk.disconnect()` with no guard, so an unassigned `sdk` raises a
`TypeError`; the SDK's own disconnect is modelled as succeeding. -/
def polygonDisconnect (a : PolygonAdapter) :
    Except AdapterError PolygonAdapter :=
  match a.sdk with
  | none => .error (.typeError "this.sdk is undefined")
  | some _ => .ok a

/-- A block as seen through the ethers provider (`provider.getBlock`). -/
structure EthBlock where
  number : Int
  hash : String
  timestamp : Int
  transactions : List String
  deriving DecidableEq, Repr

/-- Modelled from the spec (§6 backend boundary): the external ethers
`JsonRpcProvider` as the adapter observes it — a chain lookup
(`getBlock` returning `none` for a block that does not exist, as the RPC
returns `null`), the latest block, and the scalar readings used by
`getMetrics` (`getGasPrice`, `getNetwork`, and the measured latency). -/
structure EthProvider where
  getBlock : Int → Option EthBlock
  latest : EthBlock
  gasPrice : Nat
  chainId : Nat
  networkName : String
  latency : Rat

/-- `EthereumAdapter` (lines 203–335): constructor config plus the
`provider` field, unassigned until `initialize`. -/
structure EthereumAdapter where
  config : NetworkConfig
  provider : Option EthProvider

/-- `new EthereumAdapter(config)` (lines 207–211). -/
def mkEthereumAdapter (config : NetworkConfig) : EthereumAdapter :=
  { config := config, provider := none }

/-- `EthereumAdapter.initialize(config)` (lines 213–223): constructs the
provider from `config.rpc`; the chain behind that RPC endpoint is external
and passed explicitly. -/
def ethInitialize (a : EthereumAdapter) (chain : EthProvider) :
    EthereumAdapter :=
  { a with provider := some chain }

/-- `EthereumAdapter.connect()` (lines 225–227): only
`await this.provider.ready` — it records no connection state and changes
nothing; with no provider the member access raises a `TypeError`. -/
def ethConnect (a : EthereumAdapter) : Except AdapterError EthereumAdapter :=
  match a.provider with
  | none => .error (.typeError "this.provider is undefined")
  | some _ => .ok a

/-- `EthereumAdapter.disconnect()` (lines 229–231): empty body; never
throws, in any state. -/
def ethDisconnect (a : EthereumAdapter) : Except AdapterError EthereumAdapter :=
  .ok a

/-- `EthereumAdapter.getBlock(blockNumber)` (lines 259–267): fetches the
block and copies its fields; a `null` block makes the field accesses raise a
`TypeError`. -/
def ethGetBlock (a : EthereumAdapter) (blockNumber : Int) :
    Except AdapterError EthBlock :=
  match a.provider with
  | none => .error (.typeError "this.provider is undefined")
  | some p =>
      match p.getBlock blockNumber with
      | none => .error (.typeError "block is null")
      | some b =>
          .ok { number := b.number, hash := b.hash,
                timestamp := b.timestamp, transactions := b.transactions }

/-- `EthereumAdapter.calculateAverageBlockTime()` (lines 315–323): reads the
latest block, then the block `100` earlier, and divides the timestamp delta
by `100`.  There is no guard for chains shorter than 100 blocks: the request
for block `latest.number - 100` then yields `null` and the access
`oldBlock.timestamp` raises a `TypeError`. -/
def calculateAverageBlockTime (p : EthProvider) : Except AdapterError Rat :=
  let blockCount : Int := 100
  let latestBlock := p.latest
  match p.getBlock (latestBlock.number - blockCount) with
  | none => .error (.typeError "oldBlock is null")
  | some oldBlock =>
      .ok (((latestBlock.timestamp - oldBlock.timestamp : Int) : Rat) / 100)

/-- `EthereumAdapter.getMetrics()` (lines 269–282): gathers the average
block time, the gas price and `this.provider.getNetwork()` and returns an
object literal with keys `blockTime`, `gasPrice`, `nodeCount` and `latency`
only.  The literal has NO `tps` key, and its `nodeCount` is bound to
`peerCount`, the network descriptor returned by `getNetwork()`, not a node
count. -/
def ethGetMetrics (a : EthereumAdapter) : Except AdapterError NetworkMetrics :=
  match a.provider with
  | none => .error (.typeError "this.provider is undefined")
  | some p =>
      match calculateAverageBlockTime p with
      | .error e => .error e
      | .ok blockTime =>
          .ok { blockTime := some blockTime
                tps := none
                nodeCount := some (.network p.chainId p.networkName)
                latency := some p.latency
                gasPrice := some (toString p.gasPrice) }

/-- Modelled from the spec (§3): `ProofFormat` from `./types` — opaque payload
bytes plus a detachable signature. -/
structure ProofFormat where
  data : List Nat
  signature : List Nat
  deriving DecidableEq, Repr

/-- Modelled from the spec (§4.4): the identity (address) belonging to a
signing key, as derived by the external ethers wallet.  Injective in the
model, as address derivation is. -/
def addressOf (key : Nat) : Nat :=
  key + 1

/-- Modelled from the spec (§4.4): the message digest that the external
signing/recovery pair binds a signature to. -/
def hashMessage (data : List Nat) : Nat :=
  data.foldl (fun acc b => acc * 257 + b + 1) 7

/-- Modelled from the spec (§4.4 proof codec): `signer.signMessage(data)` of
the external ethers wallet — a detached signature binding the signer's
identity to the message digest. -/
def signMessage (key : Nat) (data : List Nat) : List Nat :=
  [addressOf key, hashMessage data]

/-- Modelled from the spec (§4.4, §4.1): `ethers.utils.verifyMessage` —
recovers the signer identity from a signature over the message; a malformed
or non-matching signature recovers no identity rather than raising
(§4.1: malformed proof data yields `false`, not an error). -/
def recoverMessage (data sig : List Nat) : Option Nat :=
  match sig with
  | [a, h] => if h = hashMessage data then some a else none
  | _ => none

/-- Serialization step of `EthereumAdapter.generateProof` (lines 286–289):
`abiCoder.encode(['bytes'], [toUtf8Bytes(JSON.stringify(data))])`, taking the
payload after `JSON.stringify` and producing its bytes. -/
def serializePayload (s : String) : List Nat :=
  s.data.map Char.toNat

/-- `EthereumAdapter.signData(data)` (lines 331–334): signs with the wallet
built from `this.config.privateKey`. -/
def signData (cfg : NetworkConfig) (data : List Nat) : List Nat :=
  signMessage cfg.privateKey data

/-- `EthereumAdapter.generateProof(data)` (lines 284–295): serializes the
payload and returns it together with a detached signature over the
serialization. -/
def ethGenerateProof (cfg : NetworkConfig) (payload : String) : ProofFormat :=
  let serialized := serializePayload payload
  { data := serialized, signature := signData cfg serialized }

/-- `EthereumAdapter.verifyProof(proof)` (lines 297–303): compares the
identity recovered by `ethers.utils.verifyMessage(proof.data,
proof.signature)` against `this.config.verifier`.  The body has no other
control flow, so the result is always a boolean. -/
def ethVerifyProof (cfg : NetworkConfig) (proof : ProofFormat) :
    Except AdapterError Bool :=
  .ok (decide (recoverMessage proof.data proof.signature = some cfg.verifier))

/-- The closed set of adapters the factory can construct. -/
inductive ChainAdapter where
  | poa (a : CustomPoAAdapter)
  | polygon (a : PolygonAdapter)
  | ethereum (a : EthereumAdapter)

/-- `ChainAdapterFactory.createAdapter(chainType, config)` (lines 340–356):
`switch` on the token, constructing a fresh adapter per call; the `default`
arm throws `Unsupported chain type`. -/
def createAdapter (chainType : String) (config : NetworkConfig) :
    Except AdapterError ChainAdapter :=
  if chainType = "POA" then .ok (.poa (mkCustomPoAAdapter config))
  else if chainType = "POLYGON" then .ok (.polygon (mkPolygonAdapter config))
  else if chainType = "ETHEREUM" then .ok (.ethereum (mkEthereumAdapter config))
  else .error (.unsupportedBackend chainType)

/-- Concrete configuration used by the witnesses; its verifier identity is
the address of its own signing key. -/
def cfgA : NetworkConfig :=
  { endpoints := ["poa-node-a"], rpc := "rpc-a", timeout := 5000,
    network := "legit", version := "7", privateKey := 41, verifier := 42 }

/-- A second concrete configuration, distinct from `cfgA` in endpoints and
timeout. -/
def cfgB : NetworkConfig :=
  { endpoints := ["poa-node-b"], rpc := "rpc-b", timeout := 9000,
    network := "legit", version := "7", privateKey := 7, verifier := 99 }

/-- Concrete transaction with estimated gas 100 (the spec's §8 end-to-end
scenario value). -/
def tx0 : Transaction :=
  { target := "0xcontract", payload := [1, 2, 3], estimatedGas := 100 }

/-- Concrete transaction whose estimated gas 3 makes `1.1 × g`
non-integral. -/
def tx3 : Transaction :=
  { target := "0xcontract", payload := [], estimatedGas := 3 }

/-- Chain lookup of a young chain holding blocks 0..50 only. -/
def youngChainBlock (n : Int) : Option EthBlock :=
  if 0 ≤ n ∧ n ≤ 50 then
    some { number := n, hash := "h", timestamp := 12 * n, transactions := [] }
  else
    none

/-- Provider over the young chain: 51 blocks in total, latest number 50. -/
def youngProvider : EthProvider :=
  { getBlock := youngChainBlock
    latest := { number := 50, hash := "h", timestamp := 600,
                transactions := [] }
    gasPrice := 7
    chainId := 1
    networkName := "homestead"
    latency := 5 }

/-- Chain lookup of a healthy chain holding blocks 0..200. -/
def healthyChainBlock (n : Int) : Option EthBlock :=
  if 0 ≤ n ∧ n ≤ 200 then
    some { number := n, hash := "h", timestamp := 12 * n, transactions := [] }
  else
    none

/-- Provider over the healthy chain: latest number 200, well beyond the
100-block sampling window. -/
def healthyProvider : EthProvider :=
  { getBlock := healthyChainBlock
    latest := { number := 200, hash := "h", timestamp := 2400,
                transactions := [] }
    gasPrice := 7
    chainId := 1
    networkName := "homestead"
    latency := 5 }

/-- Ethereum adapter initialized on the healthy chain (but never
connected). -/
def healthyEthAdapter : EthereumAdapter :=
  ethInitialize (mkEthereumAdapter cfgA) healthyProvider

/-- Ethereum adapter initialized on the young chain. -/
def youngEthAdapter : EthereumAdapter :=
  ethInitialize (mkEthereumAdapter cfgA) youngProvider

/-- PoA adapter after `initialize` but before any `connect`. -/
def poaInitializedNotConnected : CustomPoAAdapter :=
  poaInitialize (mkCustomPoAAdapter cfgA) cfgA

/-- A backend client that accepts every prepared transaction (the
mock-service behaviour of the surrounding test harness; spec §6 leaves the
client's wire behaviour external). -/
def acceptingClient : PoAPreparedTx → Except AdapterError String :=
  fun _ => .ok "0xabc"

/-- A proof whose signature is not even shaped like a signature. -/
def malformedProof : ProofFormat :=
  { data := [1], signature := [] }

/-- Claim C1, behaviour of the code at the failing input: the claim says every
operational method called before `connect()` succeeds fails deterministically
with a connection-state error.  In the source no adapter records or checks
connection state: on a PoA adapter that was initialized but never connected,
`submitTransaction` forwards the prepared transaction to the backend client
for ANY client behaviour, and with an accepting backend it silently returns a
transaction id; likewise the Ethereum adapter serves `getBlock` after
`initialize` although `connect` never ran. -/
theorem poa_submit_before_connect_silently_proceeds :
    poaConnected poaInitializedNotConnected = false ∧
    (∀ clientSubmit : PoAPreparedTx → Except AdapterError String,
      poaSubmitTransaction clientSubmit poaInitializedNotConnected tx0 =
        clientSubmit (poaPrepareTx tx0)) ∧
    poaSubmitTransaction acceptingClient poaInitializedNotConnected tx0 =
      .ok "0xabc" ∧
    ethGetBlock healthyEthAdapter 0 =
      .ok { number := 0, hash := "h", timestamp := 0, transactions := [] } :=
  ⟨rfl, fun _ => rfl, rfl, rfl⟩

/-- Claim C2, behaviour of the code at the failing input: on a chain with only
51 blocks (latest number 50), the average-block-time computation requests
block `-50`, receives `null`, and dies on the `oldBlock.timestamp` access
with a `TypeError` — it does not fail with `MetricsUnavailableError` as the
claim requires. -/
theorem eth_blocktime_young_chain_typeerror :
    ethGetMetrics youngEthAdapter = .error (.typeError "oldBlock is null") ∧
    ethGetMetrics youngEthAdapter ≠ .error .metricsUnavailableError :=
  ⟨rfl, fun h => nomatch h⟩

/-- Claim C3, counterexample to the claim as stated: for the transaction with
`estimatedGas = 3`, the prepared gas limit is `3 × 1.1 = 3.3`, which differs
from `round(1.1 × 3) = 3` — the source applies no rounding. -/
theorem poa_gas_limit_unrounded_cex :
    (poaPrepareTx tx3).gasLimit ≠
      ((round ((1.1 : Rat) * tx3.estimatedGas) : Int) : Rat) := by
  have h : round ((1.1 : Rat) * tx3.estimatedGas) = 3 := by
    norm_num [round_eq, tx3]
  rw [h]
  norm_num [poaPrepareTx, calculateOptimalGasLimit, tx3]

/-- Claim C3 as amended: for every `Transaction` with `estimatedGas = g`, the
prepared PoA transaction's gas limit equals exactly `g × 1.1` with no
rounding applied, and its fee field `gasPrice` equals the zero value `'0'`. -/
theorem poa_prepared_tx_gas_and_fee (tx : Transaction) :
    (poaPrepareTx tx).gasLimit = tx.estimatedGas * (11 / 10) ∧
    (poaPrepareTx tx).gasPrice = "0" :=
  ⟨rfl, rfl⟩

/-- Claim C4: when the configured verifier identity is the address of the
configured signing key, `verifyProof` accepts the `ProofFormat` produced by
`generateProof` on every payload, and rejects every single-byte mutation of
that proof's signature. -/
theorem eth_proof_roundtrip_and_mutation (cfg : NetworkConfig)
    (payload : String) (hid : addressOf cfg.privateKey = cfg.verifier) :
    ethVerifyProof cfg (ethGenerateProof cfg payload) = .ok true ∧
    ∀ i b, i < (ethGenerateProof cfg payload).signature.length →
      b ≠ (ethGenerateProof cfg payload).signature.getD i 0 →
      ethVerifyProof cfg
        { data := (ethGenerateProof cfg payload).data
          signature := List.set (ethGenerateProof cfg payload).signature i b }
        = .ok false := by
  constructor
  · simp [ethVerifyProof, ethGenerateProof, signData, signMessage,
          recoverMessage, hid]
  · intro i b hi hb
    simp only [ethGenerateProof, signData, signMessage, List.length_cons,
      List.length_nil] at hi
    match i, hi with
    | 0, _ =>
        simp only [ethGenerateProof, signData, signMessage, List.getD,
          List.get?, Option.getD] at hb
        rw [hid] at hb
        simp [ethVerifyProof, ethGenerateProof, signData, signMessage,
          recoverMessage, List.set, hb]
    | 1, _ =>
        simp only [ethGenerateProof, signData, signMessage, List.getD,
          List.get?, Option.getD] at hb
        simp [ethVerifyProof, ethGenerateProof, signData, signMessage,
          recoverMessage, List.set, hb]
    | (n+2), hi => exact absurd hi (by omega)

/-- Claim C4, witness: the concrete configuration `cfgA` satisfies the
key/verifier identity and the round-trip accepts. -/
theorem eth_proof_roundtrip_and_mutation_witness :
    addressOf cfgA.privateKey = cfgA.verifier ∧
    ethVerifyProof cfgA (ethGenerateProof cfgA "doc") = .ok true :=
  ⟨by decide, (eth_proof_roundtrip_and_mutation cfgA "doc" (by decide)).1⟩

/-- Claim C5: `verifyProof` always returns a boolean (it has no throwing
control path for any input), and on a proof whose data/signature pair is
malformed — no signer identity can be recovered — it returns `false` rather
than an error. -/
theorem eth_verify_total_malformed_false (cfg : NetworkConfig)
    (proof : ProofFormat) :
    (∃ b, ethVerifyProof cfg proof = .ok b) ∧
    (recoverMessage proof.data proof.signature = none →
      ethVerifyProof cfg proof = .ok false) := by
  refine ⟨⟨_, rfl⟩, fun h => ?_⟩
  simp [ethVerifyProof, h]

/-- Claim C5, witness: a concretely malformed proof (empty signature) yields
`false`, not an error. -/
theorem eth_verify_total_malformed_false_witness :
    recoverMessage malformedProof.data malformedProof.signature = none ∧
    ethVerifyProof cfgA malformedProof = .ok false :=
  ⟨rfl, (eth_verify_total_malformed_false cfgA malformedProof).2 rfl⟩

/-- Claim C6: for every base fee `b` reported by the SDK, the Polygon
adapter's prepared transaction carries max fee per gas exactly `2 × b`, and a
priority fee equal to the fixed policy constant 30 gwei = 30 × 10^9 wei,
independent of `b`. -/
theorem polygon_fee_strategy (baseFee : Nat) (tx : Transaction) :
    (polygonPrepareTx baseFee tx).maxFeePerGas = 2 * baseFee ∧
    (polygonPrepareTx baseFee tx).maxPriorityFeePerGas = 30 * 10 ^ 9 := by
  refine ⟨?_, rfl⟩
  simp [polygonPrepareTx, getOptimalMaxFeePerGas, Nat.mul_comm]

/-- Claim C7, behaviour of the code at the failing input: on a PoA or Polygon
adapter whose `initialize` never ran, `disconnect()` dereferences the
unassigned client/SDK field and raises a `TypeError`, contradicting the claim
that disconnect never throws; only the Ethereum adapter's empty-bodied
`disconnect` is safe in every state. -/
theorem adapter_disconnect_uninitialized_throws :
    poaDisconnect (mkCustomPoAAdapter cfgA) =
      .error (.typeError "this.client is undefined") ∧
    polygonDisconnect (mkPolygonAdapter cfgA) =
      .error (.typeError "this.sdk is undefined") ∧
    ethDisconnect (mkEthereumAdapter cfgA) = .ok (mkEthereumAdapter cfgA) :=
  ⟨rfl, rfl, rfl⟩

/-- Claim C8: the factory maps each recognized token to a fresh adapter of
the matching concrete class, still uninitialized (backend handle unassigned),
and raises the unsupported-backend error on every other token, constructing
nothing. -/
theorem factory_dispatch (cfg : NetworkConfig) (token : String) :
    createAdapter "POA" cfg = .ok (.poa { config := cfg, client := none }) ∧
    createAdapter "POLYGON" cfg =
      .ok (.polygon { config := cfg, sdk := none }) ∧
    createAdapter "ETHEREUM" cfg =
      .ok (.ethereum { config := cfg, provider := none }) ∧
    (token ≠ "POA" → token ≠ "POLYGON" → token ≠ "ETHEREUM" →
      createAdapter token cfg = .error (.unsupportedBackend token)) := by
  refine ⟨rfl, rfl, rfl, fun h1 h2 h3 => ?_⟩
  simp [createAdapter, h1, h2, h3]

/-- Claim C8, witness: the unrecognized token SOLANA is rejected. -/
theorem factory_dispatch_witness :
    createAdapter "SOLANA" cfgA = .error (.unsupportedBackend "SOLANA") :=
  (factory_dispatch cfgA "SOLANA").2.2.2 (by decide) (by decide) (by decide)

/-- Claim C9, behaviour of the code at the failing input: on a healthy chain
(201 blocks) the Ethereum adapter's `getMetrics` succeeds but returns a
metrics object with NO throughput field and with the `nodeCount` key bound to
the network descriptor returned by `getNetwork()` rather than a node count —
partial and fabricated fields instead of the `MetricsUnavailableError` the
claim requires. -/
theorem eth_metrics_incomplete_and_misassigned :
    ethGetMetrics healthyEthAdapter =
      .ok { blockTime := some 12, tps := none,
            nodeCount := some (.network 1 "homestead"),
            latency := some 5, gasPrice := some "7" } ∧
    ethGetMetrics healthyEthAdapter ≠ .error .metricsUnavailableError := by
  have h1 : ethGetMetrics healthyEthAdapter =
      .ok { blockTime := some 12, tps := none,
            nodeCount := some (.network 1 "homestead"),
            latency := some 5, gasPrice := some "7" } := by
    simp [ethGetMetrics, healthyEthAdapter, ethInitialize, mkEthereumAdapter,
          calculateAverageBlockTime, healthyProvider, healthyChainBlock]
    norm_num
    rfl
  refine ⟨h1, ?_⟩
  rw [h1]
  exact fun h => nomatch h

/-- Claim C10: whatever config `initialize` later receives, the PoA adapter's
`connect` forwards the CONSTRUCTOR config's endpoints and timeout to the
backend client. -/
theorem poa_connect_uses_constructor_config (c1 c2 : NetworkConfig)
    (h : c1 ≠ c2) :
    poaConnect ( poaInitialize (mkCustomPoAAdapter c1) c2) =
      .ok ({ config := c1, client := some { cfg := c2, connected := true } },
           { endpoints := c1.endpoints, timeout := c1.timeout }) :=
  rfl

/-- Claim C10, witness: with the distinct concrete configs `cfgA`
(constructor) and `cfgB` (initialize), `connect` forwards `cfgA`'s endpoints
and timeout. -/
theorem poa_connect_uses_constructor_config_witness :
    poaConnect ( poaInitialize (mkCustomPoAAdapter cfgA) cfgB) =
      .ok ({ config := cfgA,
             client := some { cfg := cfgB, connected := true } },
           { endpoints := cfgA.endpoints, timeout := cfgA.timeout }) :=
  poa_connect_uses_constructor_config cfgA cfgB (by decide)
